import Mathlib

/-!
Shallow embedding of `scrython/cards/cards_object.py` (class `CardsObject`):
a fetch-then-accessor wrapper over a card-database HTTP API.  The parsed JSON
response is modelled as an association-list document; each accessor method is
translated to a total Lean function returning `Except Err Json`, where `Err`
records which raise site fired, named after the specification's error
taxonomy:

  * `missingField`    — the `KeyError` raised by `_checkForKey` /
                        `_checkForTupleKey` (spec: `MissingFieldError`);
  * `invalidArgument` — the `KeyError` raised by `currency`'s mode guard
                        (spec: `InvalidArgumentError`);
  * `apiError`        — the `Exception` raised by `__init__` on an error
                        document (spec: `ApiError`), carrying the `details`
                        value;
  * `keyError`        — a plain Python `KeyError` from a dict subscript
                        (e.g. `self.scryfallJson['object']` on a document
                        without that key);
  * `indexError`      — a Python `IndexError` from a list subscript out of
                        range;
  * `typeError`       — a Python `TypeError` from applying an operation to a
                        value of the wrong shape;
  * `networkError`    — modelled from the spec: a transport-level failure
                        (the transport itself is not part of the translated
                        accessor code).
-/

namespace Scrython

/-- JSON values, as parsed from the response body. -/
inductive Json where
  | null
  | bool (b : Bool)
  | num (n : Int)
  | str (s : String)
  | arr (elems : List Json)
  | obj (fields : List (String × Json))

/-- A parsed JSON object document: string keys to JSON values
(a Python dict, modelled as an association list looked up by first match). -/
abbrev Doc := List (String × Json)

/-- Error outcomes, one constructor per raise site (see the module header). -/
inductive Err where
  | apiError (details : Json)
  | missingField (msg : String)
  | invalidArgument (msg : String)
  | keyError (key : String)
  | indexError
  | typeError
  | networkError

/-- Python dict subscript `d[key]`: the value when present,
a plain `KeyError` when absent. -/
def dictGet (d : Doc) (key : String) : Except Err Json :=
  match d.lookup key with
  | some v => .ok v
  | none => .error (.keyError key)

/-! ## URL construction (`urllib.parse.urlencode` and `__init__` lines 31-37) -/

/-- Uppercase hexadecimal digit for a value below 16. -/
def hexDigit (n : Nat) : Char :=
  if n < 10 then Char.ofNat (n + 48) else Char.ofNat (n - 10 + 65)

/-- UTF-8 encoding of a single character, as a list of byte values. -/
def utf8Bytes (c : Char) : List Nat :=
  let n := c.toNat
  if n < 0x80 then [n]
  else if n < 0x800 then
    [0xC0 + n / 0x40, 0x80 + n % 0x40]
  else if n < 0x10000 then
    [0xE0 + n / 0x1000, 0x80 + n / 0x40 % 0x40, 0x80 + n % 0x40]
  else
    [0xF0 + n / 0x40000, 0x80 + n / 0x1000 % 0x40, 0x80 + n / 0x40 % 0x40,
      0x80 + n % 0x40]

/-- `%XX` percent-encoding of one byte, uppercase hex (as Python's `quote`). -/
def percentEncode (b : Nat) : String :=
  String.mk ['%', hexDigit (b / 16 % 16), hexDigit (b % 16)]

/-- Characters Python's `urllib.parse.quote` never encodes
(ASCII letters, digits, `_`, `.`, `-`, `~`). -/
def alwaysSafe (c : Char) : Bool :=
  c.isAlpha || c.isDigit || c = '_' || c = '.' || c = '-' || c = '~'

/-- `urllib.parse.quote_plus` on one character (with `safe=''`, as used by
`urlencode`): safe characters kept, space becomes `+`, anything else is
percent-encoded byte by byte. -/
def quotePlusChar (c : Char) : String :=
  if alwaysSafe c then String.mk [c]
  else if c = ' ' then "+"
  else String.join ((utf8Bytes c).map percentEncode)

/-- `urllib.parse.quote_plus` on a string. -/
def quote_plus (s : String) : String :=
  String.join (s.data.map quotePlusChar)

/-- Python `'&'.join(parts)`. -/
def joinAmp : List String → String
  | [] => ""
  | [x] => x
  | x :: y :: xs => x ++ "&" ++ joinAmp (y :: xs)

/-- `urllib.parse.urlencode(params)`: `k=v` pairs, `quote_plus`-escaped,
joined with `&`, in the order of the mapping. -/
def urlencode (params : List (String × String)) : String :=
  joinAmp (params.map fun p => quote_plus p.1 ++ "=" ++ quote_plus p.2)

/-- `self.params` as built by `__init__` (lines 31-34): the four recognized
options read from the keyword arguments (`kwargs.get`, first match), with
`format` defaulting to `'json'` and the rest to the empty string.  Any other
keyword argument is never read. -/
def buildParams (kwargs : List (String × String)) : List (String × String) :=
  [("format", (kwargs.lookup "format").getD "json"),
    ("face", (kwargs.lookup "face").getD ""),
    ("version", (kwargs.lookup "version").getD ""),
    ("pretty", (kwargs.lookup "pretty").getD "")]

/-- `self._url` as built by `__init__` (lines 36-37):
`'https://api.scryfall.com/{0}&{1}'.format(_url, urlencode(self.params))`.
Note the separator between the path argument and the query string is a
literal `&`. -/
def buildUrl (_url : String) (kwargs : List (String × String)) : String :=
  "https://api.scryfall.com/" ++ _url ++ "&" ++ urlencode (buildParams kwargs)

/-! ## The `CardsObject` instance state and constructor -/

/-- The attributes `__init__` stores on `self`.  `scryfallJson` is the parsed
response document, fetched once; no method ever writes to any field after
construction. -/
structure CardsObject where
  params : List (String × String)
  encodedParams : String
  _url : String
  scryfallJson : Doc

/-- Python `value == 'error'`: true exactly when the value is the string
`"error"` (comparing any other JSON shape to a string yields `False`). -/
def isErrorString : Json → Bool
  | .str s => s == "error"
  | _ => false

/-- `CardsObject.__init__`, with the transport abstracted: `fetched` is the
document the HTTP GET returned (parsed JSON body).  Builds `self.params`,
`self.encodedParams` and `self._url`; then checks
`self.scryfallJson['object'] == 'error'` and raises
`Exception(self.scryfallJson['details'])` — the spec's `ApiError` — on an
error document.  A dict subscript on a document without the key is a plain
`KeyError`. -/
def construct (_url : String) (kwargs : List (String × String)) (fetched : Doc) :
    Except Err CardsObject := do
  let params := buildParams kwargs
  let encodedParams := urlencode params
  let url := "https://api.scryfall.com/" ++ _url ++ "&" ++ encodedParams
  let objValue ← dictGet fetched "object"
  if isErrorString objValue then
    let details ← dictGet fetched "details"
    Except.error (.apiError details)
  else
    Except.ok { params := params, encodedParams := encodedParams, _url := url,
                scryfallJson := fetched }

/-! ## The accessor surface -/

/-- `CardsObject._checkForKey` (lines 58-70): raises
`KeyError("This card has no key '<key>'")` — the spec's `MissingFieldError` —
when the key is not in the cached document. -/
def _checkForKey (self : CardsObject) (key : String) : Except Err Unit :=
  if !(self.scryfallJson.lookup key).isSome then
    .error (.missingField ("This card has no key '" ++ key ++ "'"))
  else
    .ok ()

/-- The shared body of every zero-argument getter:
`self._checkForKey(key); return self.scryfallJson[key]`. -/
def getField (self : CardsObject) (key : String) : Except Err Json := do
  _checkForKey self key
  dictGet self.scryfallJson key

namespace CardsObject

def object (self : CardsObject) : Except Err Json := getField self "object"

def id (self : CardsObject) : Except Err Json := getField self "id"

def multiverse_ids (self : CardsObject) : Except Err Json :=
  getField self "multiverse_ids"

def mtgo_id (self : CardsObject) : Except Err Json := getField self "mtgo_id"

def mtgo_foil_id (self : CardsObject) : Except Err Json :=
  getField self "mtgo_foil_id"

def name (self : CardsObject) : Except Err Json := getField self "name"

def uri (self : CardsObject) : Except Err Json := getField self "uri"

def scryfall_uri (self : CardsObject) : Except Err Json :=
  getField self "scryfall_uri"

def layout (self : CardsObject) : Except Err Json := getField self "layout"

def highres_image (self : CardsObject) : Except Err Json :=
  getField self "highres_image"

def image_uris (self : CardsObject) : Except Err Json :=
  getField self "image_uris"

def cmc (self : CardsObject) : Except Err Json := getField self "cmc"

def type_line (self : CardsObject) : Except Err Json := getField self "type_line"

def oracle_text (self : CardsObject) : Except Err Json :=
  getField self "oracle_text"

def mana_cost (self : CardsObject) : Except Err Json := getField self "mana_cost"

def colors (self : CardsObject) : Except Err Json := getField self "colors"

def color_identity (self : CardsObject) : Except Err Json :=
  getField self "color_identity"

def legalities (self : CardsObject) : Except Err Json :=
  getField self "legalities"

def reserved (self : CardsObject) : Except Err Json := getField self "reserved"

def reprint (self : CardsObject) : Except Err Json := getField self "reprint"

/-- `set_code` reads the JSON key `'set'`. -/
def set_code (self : CardsObject) : Except Err Json := getField self "set"

def set_name (self : CardsObject) : Except Err Json := getField self "set_name"

def set_uri (self : CardsObject) : Except Err Json := getField self "set_uri"

def set_search_uri (self : CardsObject) : Except Err Json :=
  getField self "set_search_uri"

def scryfall_set_uri (self : CardsObject) : Except Err Json :=
  getField self "scryfall_set_uri"

def rulings_uri (self : CardsObject) : Except Err Json :=
  getField self "rulings_uri"

def prints_search_uri (self : CardsObject) : Except Err Json :=
  getField self "prints_search_uri"

def collector_number (self : CardsObject) : Except Err Json :=
  getField self "collector_number"

def digital (self : CardsObject) : Except Err Json := getField self "digital"

def rarity (self : CardsObject) : Except Err Json := getField self "rarity"

def illustration_id (self : CardsObject) : Except Err Json :=
  getField self "illustration_id"

def artist (self : CardsObject) : Except Err Json := getField self "artist"

def frame (self : CardsObject) : Except Err Json := getField self "frame"

def full_art (self : CardsObject) : Except Err Json := getField self "full_art"

def border_color (self : CardsObject) : Except Err Json :=
  getField self "border_color"

def timeshifted (self : CardsObject) : Except Err Json :=
  getField self "timeshifted"

def colorshifted (self : CardsObject) : Except Err Json :=
  getField self "colorshifted"

def futureshifted (self : CardsObject) : Except Err Json :=
  getField self "futureshifted"

def edhrec_rank (self : CardsObject) : Except Err Json :=
  getField self "edhrec_rank"

def related_uris (self : CardsObject) : Except Err Json :=
  getField self "related_uris"

def purchase_uris (self : CardsObject) : Except Err Json :=
  getField self "purchase_uris"

def life_modifier (self : CardsObject) : Except Err Json :=
  getField self "life_modifier"

def hand_modifier (self : CardsObject) : Except Err Json :=
  getField self "hand_modifier"

def all_parts (self : CardsObject) : Except Err Json := getField self "all_parts"

def card_faces (self : CardsObject) : Except Err Json :=
  getField self "card_faces"

def watermark (self : CardsObject) : Except Err Json := getField self "watermark"

def story_spotlight (self : CardsObject) : Except Err Json :=
  getField self "story_spotlight"

def power (self : CardsObject) : Except Err Json := getField self "power"

def toughness (self : CardsObject) : Except Err Json := getField self "toughness"

def flavor_text (self : CardsObject) : Except Err Json :=
  getField self "flavor_text"

def arena_id (self : CardsObject) : Except Err Json := getField self "arena_id"

def lang (self : CardsObject) : Except Err Json := getField self "lang"

def printed_name (self : CardsObject) : Except Err Json :=
  getField self "printed_name"

def printed_type_line (self : CardsObject) : Except Err Json :=
  getField self "printed_type_line"

def printed_text (self : CardsObject) : Except Err Json :=
  getField self "printed_text"

def oracle_id (self : CardsObject) : Except Err Json := getField self "oracle_id"

def foil (self : CardsObject) : Except Err Json := getField self "foil"

def loyalty (self : CardsObject) : Except Err Json := getField self "loyalty"

def nonfoil (self : CardsObject) : Except Err Json := getField self "nonfoil"

def oversized (self : CardsObject) : Except Err Json := getField self "oversized"

/-- `CardsObject.currency` (lines 480-498): the mode guard raises
`KeyError("<mode> is not a key.")` — the spec's `InvalidArgumentError` —
before the document is consulted; a recognized mode proceeds as a normal
key lookup (`_checkForKey` then subscript). -/
def currency (self : CardsObject) (mode : String) : Except Err Json :=
  let modes := ["usd", "eur", "tix"]
  if mode ∉ modes then
    .error (.invalidArgument (mode ++ " is not a key."))
  else do
    _checkForKey self mode
    dictGet self.scryfallJson mode

end CardsObject

/-! ## Tuple-style access (`_checkForTupleKey` and `color_indicator`) -/

/-- Python list subscript `xs[num]` with an `int` index: non-negative indices
count from the front, negative indices from the back, anything out of range
raises `IndexError` (`'list index out of range'`, naming neither list nor
index). -/
def pyListGet (xs : List Json) (num : Int) : Except Err Json :=
  let len : Int := xs.length
  if 0 ≤ num ∧ num < len then
    .ok (xs.getD num.toNat .null)
  else if -len ≤ num ∧ num < 0 then
    .ok (xs.getD (num + len).toNat .null)
  else
    .error .indexError

/-- Python subscript `v[num]` with an `int` index on a JSON value: list
indexing when the value is a list; any other shape found in a card document
fails with a type error.  (A Python `str` also supports `int` subscripts, but
no string-valued field is ever indexed by this class.) -/
def pyGetItemInt (v : Json) (num : Int) : Except Err Json :=
  match v with
  | .arr xs => pyListGet xs num
  | _ => .error .typeError

/-- Python `key in v` for a string `key`: key test on a dict, element test on
a list (a string element equal to `key`; elements of other shapes never equal
a string).  Other shapes in a card document do not support `in` and fail with
a type error.  (Python substring membership on a `str` value is not reachable
through this class's tuple getters.) -/
def pyContainsStr (v : Json) (key : String) : Except Err Bool :=
  match v with
  | .obj fields => .ok (fields.lookup key).isSome
  | .arr xs => .ok (xs.any fun e => match e with | .str s => s == key | _ => false)
  | _ => .error .typeError

/-- `CardsObject._checkForTupleKey` (lines 72-86):
`if not key in self.scryfallJson[parent][num]: raise KeyError(...)`.
The message — the spec's `MissingFieldError` for tuple getters — is
`"This tuple has no key '<key>'"`, naming only the sub-key; the subscripts
themselves can instead raise a plain `KeyError` (parent absent) or an
`IndexError` (index out of range). -/
def _checkForTupleKey (self : CardsObject) (parent : String) (num : Int)
    (key : String) : Except Err Unit := do
  let parentValue ← dictGet self.scryfallJson parent
  let elem ← pyGetItemInt parentValue num
  let present ← pyContainsStr elem key
  if !present then
    .error (.missingField ("This tuple has no key '" ++ key ++ "'"))
  else
    .ok ()

namespace CardsObject

/-- `CardsObject.color_indicator` (lines 540-548):
`self._checkForTupleKey('card_faces', num, 'color_indicator')` then
`return self.scryfallJson['card_faces'][num]['color_indicator']`. -/
def color_indicator (self : CardsObject) (num : Int) : Except Err Json := do
  _checkForTupleKey self "card_faces" num "color_indicator"
  let parentValue ← dictGet self.scryfallJson "card_faces"
  let elem ← pyGetItemInt parentValue num
  match elem with
  | .obj fields => dictGet fields "color_indicator"
  | _ => .error .typeError

end CardsObject

/-- The zero-argument getters, paired with the JSON key each one reads
(the method name and the key coincide except for `set_code`, which reads
`'set'`). -/
def zeroArgGetters : List (String × (CardsObject → Except Err Json)) :=
  [("object", CardsObject.object), ("id", CardsObject.id),
    ("multiverse_ids", CardsObject.multiverse_ids),
    ("mtgo_id", CardsObject.mtgo_id), ("mtgo_foil_id", CardsObject.mtgo_foil_id),
    ("name", CardsObject.name), ("uri", CardsObject.uri),
    ("scryfall_uri", CardsObject.scryfall_uri), ("layout", CardsObject.layout),
    ("highres_image", CardsObject.highres_image),
    ("image_uris", CardsObject.image_uris), ("cmc", CardsObject.cmc),
    ("type_line", CardsObject.type_line),
    ("oracle_text", CardsObject.oracle_text),
    ("mana_cost", CardsObject.mana_cost), ("colors", CardsObject.colors),
    ("color_identity", CardsObject.color_identity),
    ("legalities", CardsObject.legalities), ("reserved", CardsObject.reserved),
    ("reprint", CardsObject.reprint), ("set", CardsObject.set_code),
    ("set_name", CardsObject.set_name), ("set_uri", CardsObject.set_uri),
    ("set_search_uri", CardsObject.set_search_uri),
    ("scryfall_set_uri", CardsObject.scryfall_set_uri),
    ("rulings_uri", CardsObject.rulings_uri),
    ("prints_search_uri", CardsObject.prints_search_uri),
    ("collector_number", CardsObject.collector_number),
    ("digital", CardsObject.digital), ("rarity", CardsObject.rarity),
    ("illustration_id", CardsObject.illustration_id),
    ("artist", CardsObject.artist), ("frame", CardsObject.frame),
    ("full_art", CardsObject.full_art),
    ("border_color", CardsObject.border_color),
    ("timeshifted", CardsObject.timeshifted),
    ("colorshifted", CardsObject.colorshifted),
    ("futureshifted", CardsObject.futureshifted),
    ("edhrec_rank", CardsObject.edhrec_rank),
    ("related_uris", CardsObject.related_uris),
    ("purchase_uris", CardsObject.purchase_uris),
    ("life_modifier", CardsObject.life_modifier),
    ("hand_modifier", CardsObject.hand_modifier),
    ("all_parts", CardsObject.all_parts),
    ("card_faces", CardsObject.card_faces),
    ("watermark", CardsObject.watermark),
    ("story_spotlight", CardsObject.story_spotlight),
    ("power", CardsObject.power), ("toughness", CardsObject.toughness),
    ("flavor_text", CardsObject.flavor_text),
    ("arena_id", CardsObject.arena_id), ("lang", CardsObject.lang),
    ("printed_name", CardsObject.printed_name),
    ("printed_type_line", CardsObject.printed_type_line),
    ("printed_text", CardsObject.printed_text),
    ("oracle_id", CardsObject.oracle_id), ("foil", CardsObject.foil),
    ("loyalty", CardsObject.loyalty), ("nonfoil", CardsObject.nonfoil),
    ("oversized", CardsObject.oversized)]

/-! ## Method-call semantics

Getter invocations as explicit state transitions on the instance.  Each
method body contains only reads of `self.scryfallJson` and raises; no
statement assigns to any attribute of `self`, so the translation of every
call returns the instance state unchanged — on the error paths too, since a
raise aborts the body before any write could occur. -/

/-- One getter invocation: a zero-argument getter (identified by the JSON
key it reads), `currency(mode)`, or `color_indicator(num)`. -/
inductive Call where
  | field (key : String)
  | currencyCall (mode : String)
  | colorIndicatorCall (num : Int)

/-- Execute one method call on an instance: the call's outcome paired with
the instance state after the call. -/
def execCall (self : CardsObject) : Call → Except Err Json × CardsObject
  | .field key => (getField self key, self)
  | .currencyCall mode => (self.currency mode, self)
  | .colorIndicatorCall num => (self.color_indicator num, self)

/-- Execute a sequence of method calls, threading the instance state. -/
def runCalls (self : CardsObject) : List Call → List (Except Err Json) × CardsObject
  | [] => ([], self)
  | c :: cs =>
    let r := execCall self c
    let rest := runCalls r.2 cs
    (r.1 :: rest.1, rest.2)

/-! ## Concrete documents used to exercise the definitions -/

/-- A mock card document: `object == "card"`, a `name`, and no `power` key. -/
def mockCardDoc : Doc := [("object", .str "card"), ("name", .str "Ornithopter")]

/-- An instance caching `mockCardDoc`. -/
def mockCard : CardsObject :=
  { params := [], encodedParams := "", _url := "", scryfallJson := mockCardDoc }

/-- A document with a single card face whose `color_indicator` is `["U","B"]`. -/
def oneFaceDoc : Doc :=
  [("card_faces", .arr [.obj [("color_indicator", .arr [.str "U", .str "B"])]])]

/-- An instance caching `oneFaceDoc`. -/
def oneFaceCard : CardsObject :=
  { params := [], encodedParams := "", _url := "", scryfallJson := oneFaceDoc }

/-- A document with two card faces, each with its own `color_indicator`. -/
def twoFaceDoc : Doc :=
  [("card_faces", .arr
    [.obj [("color_indicator", .arr [.str "U"])],
      .obj [("color_indicator", .arr [.str "G", .str "W"])]])]

/-- An instance caching `twoFaceDoc`. -/
def twoFaceCard : CardsObject :=
  { params := [], encodedParams := "", _url := "", scryfallJson := twoFaceDoc }

/-- The instance `construct "cards/named" [] mockCardDoc` yields. -/
def mockConstructed : CardsObject :=
  { params := buildParams [], encodedParams := urlencode (buildParams []),
    _url := "https://api.scryfall.com/" ++ "cards/named" ++ "&" ++
      urlencode (buildParams []),
    scryfallJson := mockCardDoc }

/-! ## Helper lemmas -/

/-- Behaviour of the shared zero-argument getter body: an absent key yields
the `MissingFieldError` naming that key, a present key yields the stored
value unchanged. -/
theorem getField_eq (self : CardsObject) (key : String) :
    (self.scryfallJson.lookup key = none →
      getField self key =
        .error (.missingField ("This card has no key '" ++ key ++ "'"))) ∧
    (∀ v, self.scryfallJson.lookup key = some v → getField self key = .ok v) := by
  constructor
  · intro h
    unfold getField _checkForKey dictGet
    rw [h]
    rfl
  · intro v h
    unfold getField _checkForKey dictGet
    rw [h]
    rfl

/-- Reduction of a monadic bind on a success value. -/
theorem ok_bind {α β : Type} (a : α) (f : α → Except Err β) :
    (Except.ok a >>= f) = f a := rfl

/-- Reduction of a monadic bind on an error value. -/
theorem error_bind {α β : Type} (e : Err) (f : α → Except Err β) :
    ((Except.error e : Except Err α) >>= f) = Except.error e := rfl

/-! ## Claims -/

/-- C1: for every zero-argument getter and every cached document, if the
getter's field key is absent from the document the call fails with a
`MissingFieldError` whose message names that field; if the key is present
the call returns the stored value unchanged — no coercion, no default
substitution. -/
theorem c1_zero_arg_getters :
    ∀ p ∈ zeroArgGetters, ∀ self : CardsObject,
      (self.scryfallJson.lookup p.1 = none →
        p.2 self =
          .error (.missingField ("This card has no key '" ++ p.1 ++ "'"))) ∧
      (∀ v, self.scryfallJson.lookup p.1 = some v → p.2 self = .ok v) := by
  intro p hp self
  fin_cases hp <;> exact getField_eq self _

/-- C1 witness: on `mockCardDoc` (no `power` key, `name` present), the power
getter fails naming `"power"` and the name getter returns the stored value. -/
theorem c1_zero_arg_getters_witness :
    CardsObject.power mockCard =
      .error (.missingField "This card has no key 'power'") ∧
    CardsObject.name mockCard = .ok (.str "Ornithopter") := by
  constructor
  · exact (c1_zero_arg_getters ("power", CardsObject.power)
      (by simp [zeroArgGetters]) mockCard).1 rfl
  · exact (c1_zero_arg_getters ("name", CardsObject.name)
      (by simp [zeroArgGetters]) mockCard).2 (.str "Ornithopter") rfl

/-- C2: if the transport returns a document whose `object` field is
`"error"` and whose `details` field is the string `x`, construction fails
with an `ApiError` whose message is exactly `x`, and no instance backed by
that document is produced. -/
theorem c2_error_document (u : String) (kw : List (String × String)) (doc : Doc)
    (x : String)
    (hobj : doc.lookup "object" = some (.str "error"))
    (hdet : doc.lookup "details" = some (.str x)) :
    construct u kw doc = .error (.apiError (.str x)) ∧
    ∀ inst : CardsObject, construct u kw doc ≠ .ok inst := by
  have h1 : construct u kw doc = .error (.apiError (.str x)) := by
    unfold construct dictGet
    rw [hobj, hdet]
    rfl
  refine ⟨h1, fun inst h => ?_⟩
  rw [h1] at h
  exact Except.noConfusion h

/-- C2 witness: an error document with `details == "X"` makes construction
fail with `ApiError "X"`. -/
theorem c2_error_document_witness :
    construct "cards/named" [] [("object", .str "error"), ("details", .str "X")] =
      .error (.apiError (.str "X")) :=
  (c2_error_document "cards/named" []
    [("object", .str "error"), ("details", .str "X")] "X" rfl rfl).1

/-- C8: if the transport returns a document with no `object` key at all,
construction fails with a plain missing-key error (`KeyError` on
`'object'`), not an `ApiError` and not a `NetworkError`: the error-shape
check itself subscripts the `object` key. -/
theorem c8_no_object_key (u : String) (kw : List (String × String)) (doc : Doc)
    (h : doc.lookup "object" = none) :
    construct u kw doc = .error (.keyError "object") ∧
    (∀ d : Json, construct u kw doc ≠ .error (.apiError d)) ∧
    construct u kw doc ≠ .error .networkError := by
  have h1 : construct u kw doc = .error (.keyError "object") := by
    unfold construct dictGet
    rw [h]
    rfl
  refine ⟨h1, fun d hc => ?_, fun hc => ?_⟩
  · rw [h1] at hc
    cases hc
  · rw [h1] at hc
    cases hc

/-- C8 witness: a document without an `object` key fails construction with
the plain `KeyError` on `'object'`. -/
theorem c8_no_object_key_witness :
    construct "cards/named" [] [("name", .str "Ornithopter")] =
      .error (.keyError "object") :=
  (c8_no_object_key "cards/named" [] [("name", .str "Ornithopter")] rfl).1

/-- C9: every successfully constructed instance caches a document whose
`object` key is present with a value other than the string `"error"`, so the
`object()` getter succeeds on it and never returns `"error"`. -/
theorem c9_constructed_not_error (u : String) (kw : List (String × String))
    (doc : Doc) (inst : CardsObject)
    (h : construct u kw doc = .ok inst) :
    ∃ v, inst.scryfallJson.lookup "object" = some v ∧ v ≠ .str "error" ∧
      CardsObject.object inst = .ok v := by
  cases hv : doc.lookup "object" with
  | none =>
    simp [construct, dictGet, hv, ok_bind, error_bind] at h
  | some v =>
    by_cases he : isErrorString v = true
    · cases hd : doc.lookup "details" with
      | none => simp [construct, dictGet, hv, he, hd, ok_bind, error_bind] at h
      | some d => simp [construct, dictGet, hv, he, hd, ok_bind, error_bind] at h
    · simp [construct, dictGet, hv, he, ok_bind, error_bind] at h
      have hjson : inst.scryfallJson = doc := by
        rw [← h]
      have hlk : inst.scryfallJson.lookup "object" = some v := by
        rw [hjson]
        exact hv
      refine ⟨v, hlk, ?_, (getField_eq inst "object").2 v hlk⟩
      intro hveq
      rw [hveq] at he
      exact he rfl

/-- C9 witness: a successful construction from a `card` document yields an
instance whose `object()` getter returns a non-`"error"` value. -/
theorem c9_constructed_not_error_witness :
    ∃ v, mockConstructed.scryfallJson.lookup "object" = some v ∧
      v ≠ .str "error" ∧ CardsObject.object mockConstructed = .ok v :=
  c9_constructed_not_error "cards/named" [] mockCardDoc mockConstructed rfl

/-- C4: `currency(mode)` with a mode outside `{usd, eur, tix}` fails with an
`InvalidArgumentError` without reading the document (the outcome is the same
for every instance); with a mode in that set it behaves exactly as the normal
key lookup with `mode` as the key. -/
theorem c4_currency (self : CardsObject) (mode : String) :
    (mode ∉ ["usd", "eur", "tix"] →
      CardsObject.currency self mode =
        .error (.invalidArgument (mode ++ " is not a key."))) ∧
    (mode ∈ ["usd", "eur", "tix"] →
      CardsObject.currency self mode = getField self mode) := by
  constructor
  · intro h
    unfold CardsObject.currency
    rw [if_pos h]
  · intro h
    unfold CardsObject.currency getField
    rw [if_neg (by simp [h])]

/-- C4 witness: `currency("usd")` on a document with `{"usd": "1.23"}`
returns `"1.23"`; `currency("btc")` fails with the `InvalidArgumentError`
on that same document. -/
theorem c4_currency_witness :
    CardsObject.currency
      { params := [], encodedParams := "", _url := "",
        scryfallJson := [("usd", .str "1.23")] } "usd" = .ok (.str "1.23") ∧
    CardsObject.currency
      { params := [], encodedParams := "", _url := "",
        scryfallJson := [("usd", .str "1.23")] } "btc" =
      .error (.invalidArgument "btc is not a key.") := by
  constructor
  · rw [(c4_currency _ "usd").2 (by decide)]
    rfl
  · exact (c4_currency _ "btc").1 (by decide)

/-- C5 counterexample: on `document["card_faces"] = [{"color_indicator":
["U","B"]}]`, `color_indicator(1)` fails with an `IndexError` (Python's
`'list index out of range'`, raised by the list subscript inside
`_checkForTupleKey` before the key is ever tested) — not with a
`MissingFieldError`, and nothing in the outcome references the parent field
or the index. -/
theorem c5_counterexample :
    CardsObject.color_indicator oneFaceCard 1 = .error .indexError ∧
    (match CardsObject.color_indicator oneFaceCard 1 with
      | .error (.missingField _) => False
      | _ => True) :=
  ⟨rfl, trivial⟩

/-- C5 as amended: on the claim's document, `color_indicator(0)` returns
`["U","B"]`; `color_indicator(1)` fails with an index-out-of-range error
(`IndexError`), not a `MissingFieldError` naming the parent field and index.
(The tuple-style `MissingFieldError` — reached only when the indexed face
exists but lacks the sub-key — names only the sub-key, never the parent or
the index.) -/
theorem c5_amended :
    CardsObject.color_indicator oneFaceCard 0 = .ok (.arr [.str "U", .str "B"]) ∧
    CardsObject.color_indicator oneFaceCard 1 = .error .indexError ∧
    CardsObject.color_indicator
      { params := [], encodedParams := "", _url := "",
        scryfallJson := [("card_faces", .arr [.obj []])] } 0 =
      .error (.missingField "This tuple has no key 'color_indicator'") :=
  ⟨rfl, rfl, rfl⟩

/-- C10: `color_indicator` accepts negative indices: whenever the cached
document's `card_faces` list is non-empty and its last element has a
`color_indicator` key, `color_indicator(-1)` succeeds with the last face's
color indicator, because the lookup uses Python list indexing with no bound
or sign check. -/
theorem c10_negative_index (self : CardsObject) (xs : List Json)
    (fields : List (String × Json)) (v : Json)
    (h1 : self.scryfallJson.lookup "card_faces" = some (.arr xs))
    (h2 : xs.getLast? = some (.obj fields))
    (h3 : fields.lookup "color_indicator" = some v) :
    CardsObject.color_indicator self (-1) = .ok v := by
  have hlen : 1 ≤ xs.length := by
    cases xs with
    | nil => simp [List.getLast?] at h2
    | cons a l => simp
  have hpl : pyListGet xs (-1) = .ok (.obj fields) := by
    unfold pyListGet
    rw [if_neg (by omega), if_pos (by constructor <;> omega)]
    have hix : ((-1 : Int) + (xs.length : Int)).toNat = xs.length - 1 := by
      omega
    rw [hix, List.getD_eq_getElem?_getD, ← List.getLast?_eq_getElem?, h2]
    rfl
  have hdg : dictGet self.scryfallJson "card_faces" = .ok (.arr xs) := by
    unfold dictGet
    rw [h1]
  have hgi : pyGetItemInt (.arr xs) (-1) = .ok (.obj fields) := hpl
  have hpc : pyContainsStr (.obj fields) "color_indicator" = .ok true := by
    unfold pyContainsStr
    simp [h3]
  have hck : _checkForTupleKey self "card_faces" (-1) "color_indicator" =
      .ok () := by
    unfold _checkForTupleKey
    rw [hdg, ok_bind, hgi, ok_bind, hpc, ok_bind]
    rfl
  unfold CardsObject.color_indicator
  rw [hck, ok_bind, hdg, ok_bind, hgi, ok_bind]
  unfold dictGet
  simp [h3]

/-- C10 witness: on a two-face document, `color_indicator(-1)` returns the
second (last) face's color indicator. -/
theorem c10_negative_index_witness :
    CardsObject.color_indicator twoFaceCard (-1) = .ok (.arr [.str "G", .str "W"]) :=
  c10_negative_index twoFaceCard
    [.obj [("color_indicator", .arr [.str "U"])],
      .obj [("color_indicator", .arr [.str "G", .str "W"])]]
    [("color_indicator", .arr [.str "G", .str "W"])]
    (.arr [.str "G", .str "W"]) rfl rfl rfl

/-- C6: once construction succeeds, every sequence of getter calls
(including calls that fail with a `MissingFieldError`) leaves the instance
state unchanged, and every call's result is the one obtained on the original
frozen document — in particular repeated calls to the same getter return
equal values, and a failing getter does not change what any other getter
returns afterwards. -/
theorem c6_frozen_instance (u : String) (kw : List (String × String))
    (doc : Doc) (self : CardsObject)
    (h : construct u kw doc = .ok self) (calls : List Call) :
    (runCalls self calls).2 = self ∧
    (runCalls self calls).1 = (calls.map fun c => (execCall self c).1) ∧
    ∀ c : Call,
      (runCalls self [c, c]).1 = [(execCall self c).1, (execCall self c).1] := by
  have main : ∀ cs : List Call, (runCalls self cs).2 = self ∧
      (runCalls self cs).1 = (cs.map fun c => (execCall self c).1) := by
    intro cs
    induction cs with
    | nil => exact ⟨rfl, rfl⟩
    | cons c rest ih =>
      have hstate : (execCall self c).2 = self := by cases c <;> rfl
      refine ⟨?_, ?_⟩
      · show (runCalls (execCall self c).2 rest).2 = self
        rw [hstate]
        exact ih.1
      · show (execCall self c).1 :: (runCalls (execCall self c).2 rest).1 =
          (execCall self c).1 :: (rest.map fun c => (execCall self c).1)
        rw [hstate, ih.2]
  exact ⟨(main calls).1, (main calls).2, fun c => (main [c, c]).2⟩

/-- C6 witness: on a constructed instance, the sequence power-name-power
(first and third failing with a `MissingFieldError`) returns the pointwise
results on the frozen document and leaves the instance unchanged. -/
theorem c6_frozen_instance_witness :
    (runCalls mockConstructed
        [.field "power", .field "name", .field "power"]).2 = mockConstructed ∧
    (runCalls mockConstructed
        [.field "power", .field "name", .field "power"]).1 =
      ([Call.field "power", Call.field "name", Call.field "power"].map
        fun c => (execCall mockConstructed c).1) ∧
    ∀ c : Call, (runCalls mockConstructed [c, c]).1 =
      [(execCall mockConstructed c).1, (execCall mockConstructed c).1] :=
  c6_frozen_instance "cards/named" [] mockCardDoc mockConstructed rfl
    [.field "power", .field "name", .field "power"]

/-- C7: construction reads exactly the four options `format`, `face`,
`version`, `pretty` from the configuration — `format` defaulting to
`"json"`, the rest to the empty string — so two configurations that agree on
those four produce identical parameters and an identical request URL
(any unrecognized option is ignored), and an empty configuration yields the
defaults. -/
theorem c7_recognized_options (path : String) (kw1 kw2 : List (String × String))
    (h : ∀ k ∈ ["format", "face", "version", "pretty"],
      kw1.lookup k = kw2.lookup k) :
    buildParams kw1 = buildParams kw2 ∧
    buildUrl path kw1 = buildUrl path kw2 ∧
    buildParams [] =
      [("format", "json"), ("face", ""), ("version", ""), ("pretty", "")] := by
  have hp : buildParams kw1 = buildParams kw2 := by
    unfold buildParams
    rw [h "format" (by simp), h "face" (by simp), h "version" (by simp),
      h "pretty" (by simp)]
  refine ⟨hp, ?_, rfl⟩
  unfold buildUrl
  rw [hp]

/-- C7 witness: a configuration with an extra unrecognized `foo` option
yields the same parameters and URL as the one without it. -/
theorem c7_recognized_options_witness :
    buildParams [("foo", "bar"), ("pretty", "true")] =
      buildParams [("pretty", "true")] ∧
    buildUrl "cards/named" [("foo", "bar"), ("pretty", "true")] =
      buildUrl "cards/named" [("pretty", "true")] ∧
    buildParams [] =
      [("format", "json"), ("face", ""), ("version", ""), ("pretty", "")] :=
  c7_recognized_options "cards/named" [("foo", "bar"), ("pretty", "true")]
    [("pretty", "true")] (by decide)

/-- C3 counterexample: the claim requires the URL form
`https://api.<provider>.com/<path>?format=...`, but for path `cards` with
the default configuration the code produces a URL joining the path to the
query string with `&`, containing no `?` at all. -/
theorem c3_counterexample :
    buildUrl "cards" [] =
      "https://api.scryfall.com/cards&format=json&face=&version=&pretty=" ∧
    '?' ∉ (buildUrl "cards" []).data := by
  decide

/-- C3 as amended: for every path and configuration the constructed URL is
`https://api.scryfall.com/<path>&format=<f>&face=<fa>&version=<v>&pretty=<p>`
— the four recognized query parameters, each always present (possibly
empty-valued) with its configured or default `quote_plus`-encoded value, in
that stable order, but joined to the path with `&` rather than `?`. -/
theorem c3_amended (path : String) (kw : List (String × String)) :
    buildUrl path kw =
      "https://api.scryfall.com/" ++ path ++ "&" ++
        "format" ++ "=" ++ quote_plus ((kw.lookup "format").getD "json") ++
        "&" ++ "face" ++ "=" ++ quote_plus ((kw.lookup "face").getD "") ++
        "&" ++ "version" ++ "=" ++ quote_plus ((kw.lookup "version").getD "") ++
        "&" ++ "pretty" ++ "=" ++ quote_plus ((kw.lookup "pretty").getD "") := by
  have e1 : quote_plus "format" = "format" := by decide
  have e2 : quote_plus "face" = "face" := by decide
  have e3 : quote_plus "version" = "version" := by decide
  have e4 : quote_plus "pretty" = "pretty" := by decide
  simp only [buildUrl, urlencode, buildParams, List.map, joinAmp,
    e1, e2, e3, e4, String.append_assoc]

end Scrython
